import Mathlib

/-!
Verification of the prediction-serving contract of the health-insurance
MLOps repository (`app/api.py`, `src/predict.py`, `src/utils.py`,
`src/preprocessing.py`), as a shallow embedding in Lean 4.

Python floats are modelled as rationals (all constants involved are exact),
Python exceptions as an explicit error type, and the Prometheus metrics,
log lines and audit entries as an explicitly threaded state record.
Wall-clock timestamps are opaque strings supplied by the caller.
-/

/-- Python exception values relevant to the serving path: `ValueError`
(raised by the validators and by `predict` on structural-validation
failure) versus any other exception class, each carrying its `str(e)`. -/
inductive PyErr where
  | valueError (msg : String)
  | otherError (msg : String)
deriving DecidableEq, Repr

/-- Models `str(e)` of an exception: the carried message. -/
def PyErr.msg : PyErr → String
  | .valueError m => m
  | .otherError m => m

deriving instance DecidableEq for Except

/-- The request schema of `app/api.py` (`class PredictionInput`): the raw
typed fields before the field validators run. -/
structure PredictionInput where
  age : Int
  bmi : ℚ
  children : Int
  smoker : Bool
  region : String
  gender : String
deriving DecidableEq, Repr

/-- Python `str.lower()` on one character, for the ASCII range (every
member of the fixed enumerations is ASCII). -/
def pyLowerChar (c : Char) : Char :=
  if c.toNat ≥ 65 ∧ c.toNat ≤ 90 then Char.ofNat (c.toNat + 32) else c

/-- Python `str.lower()` restricted to ASCII case mapping. -/
def pyLower (s : String) : String := String.mk (s.data.map pyLowerChar)

/-- Models `valid_regions` from the `validate_region` validator. -/
def valid_regions : List String := ["northeast", "northwest", "southeast", "southwest"]

/-- Models `valid_genders` from the `validate_gender` validator. -/
def valid_genders : List String := ["male", "female"]

/-- Models `validate_age` (api.py 45-49): rejects unless `0 <= v <= 100`. -/
def validate_age (v : Int) : Except PyErr Int :=
  if 0 ≤ v ∧ v ≤ 100 then .ok v
  else .error (.valueError "Age must be between 0 and 100")

/-- Models `validate_bmi` (api.py 51-55): rejects unless `10 <= v <= 50`. -/
def validate_bmi (v : ℚ) : Except PyErr ℚ :=
  if 10 ≤ v ∧ v ≤ 50 then .ok v
  else .error (.valueError "BMI must be between 10 and 50")

/-- Models `validate_children` (api.py 57-61): rejects unless `0 <= v <= 10`. -/
def validate_children (v : Int) : Except PyErr Int :=
  if 0 ≤ v ∧ v ≤ 10 then .ok v
  else .error (.valueError "Number of children must be between 0 and 10")

/-- Models `validate_region` (api.py 63-68): case-insensitive membership in
`valid_regions`, returns the lower-cased value. -/
def validate_region (v : String) : Except PyErr String :=
  if pyLower v ∈ valid_regions then .ok (pyLower v)
  else .error (.valueError "Region must be one of the valid regions")

/-- Models `validate_gender` (api.py 70-75): case-insensitive membership in
`valid_genders`, returns the lower-cased value. -/
def validate_gender (v : String) : Except PyErr String :=
  if pyLower v ∈ valid_genders then .ok (pyLower v)
  else .error (.valueError "Gender must be one of the valid genders")

/-- Running all `PredictionInput` field validators (pydantic model
construction): every field must pass, the normalized model carries the
return values of the validators; any failure rejects the whole request. -/
def parsePredictionInput (inp : PredictionInput) : Except PyErr PredictionInput :=
  match validate_age inp.age with
  | .error e => .error e
  | .ok a =>
    match validate_bmi inp.bmi with
    | .error e => .error e
    | .ok b =>
      match validate_children inp.children with
      | .error e => .error e
      | .ok c =>
        match validate_region inp.region with
        | .error e => .error e
        | .ok r =>
          match validate_gender inp.gender with
          | .error e => .error e
          | .ok g =>
            .ok { age := a, bmi := b, children := c,
                  smoker := inp.smoker, region := r, gender := g }

/-- The documented domain constraints on a request, exactly the conditions
tested by the five validators. -/
def inputValid (inp : PredictionInput) : Prop :=
  (0 ≤ inp.age ∧ inp.age ≤ 100) ∧
  (10 ≤ inp.bmi ∧ inp.bmi ≤ 50) ∧
  (0 ≤ inp.children ∧ inp.children ≤ 10) ∧
  pyLower inp.region ∈ valid_regions ∧
  pyLower inp.gender ∈ valid_genders

instance (inp : PredictionInput) : Decidable (inputValid inp) := by
  unfold inputValid; infer_instance

/-- The normalization the validators perform on a passing request:
region and gender lower-cased, all other fields unchanged. -/
def normalizeInput (inp : PredictionInput) : PredictionInput :=
  { inp with region := pyLower inp.region, gender := pyLower inp.gender }

theorem parse_ok_of_valid (inp : PredictionInput) (h : inputValid inp) :
    parsePredictionInput inp = .ok (normalizeInput inp) := by
  obtain ⟨ha, hb, hc, hr, hg⟩ := h
  simp [parsePredictionInput, validate_age, validate_bmi, validate_children,
    validate_region, validate_gender, ha, hb, hc, hr, hg, normalizeInput]

theorem parse_err_of_invalid (inp : PredictionInput) (h : ¬ inputValid inp) :
    ∃ e, parsePredictionInput inp = .error e := by
  unfold inputValid at h
  unfold parsePredictionInput validate_age validate_bmi validate_children
    validate_region validate_gender
  by_cases ha : 0 ≤ inp.age ∧ inp.age ≤ 100 <;> simp [ha] at h ⊢
  by_cases hb : 10 ≤ inp.bmi ∧ inp.bmi ≤ 50 <;> simp [hb] at h ⊢
  by_cases hc : 0 ≤ inp.children ∧ inp.children ≤ 10 <;> simp [hc] at h ⊢
  by_cases hr : pyLower inp.region ∈ valid_regions <;> simp [hr] at h ⊢
  simp [h]

/-- C1: requests with age in [0,100], bmi in [10,50], children in [0,10],
and region/gender in their enumerations case-insensitively are accepted
with region and gender lower-cased; any request violating one of the
rules is rejected as a whole. -/
theorem C1_validators_accept_iff_valid (inp : PredictionInput) :
    (inputValid inp →
      parsePredictionInput inp = .ok (normalizeInput inp)) ∧
    (¬ inputValid inp → ∃ e, parsePredictionInput inp = .error e) :=
  ⟨parse_ok_of_valid inp, parse_err_of_invalid inp⟩

/-- Concrete instantiation of C1: the documented example request, with
mixed-case region and gender, validates and is normalized; a request with
age 150 is rejected. -/
theorem C1_validators_witness :
    (inputValid
        { age := 35, bmi := 25, children := 2, smoker := false,
          region := "SouthWest", gender := "Female" } ∧
      parsePredictionInput
        { age := 35, bmi := 25, children := 2, smoker := false,
          region := "SouthWest", gender := "Female" } =
        .ok (normalizeInput
          { age := 35, bmi := 25, children := 2, smoker := false,
            region := "SouthWest", gender := "Female" })) ∧
    (¬ inputValid
        { age := 150, bmi := 25, children := 2, smoker := false,
          region := "southwest", gender := "female" } ∧
      ∃ e, parsePredictionInput
        { age := 150, bmi := 25, children := 2, smoker := false,
          region := "southwest", gender := "female" } = .error e) :=
  ⟨⟨by decide,
    (C1_validators_accept_iff_valid _).1 (by decide)⟩,
   ⟨by decide,
    (C1_validators_accept_iff_valid _).2 (by decide)⟩⟩

/-! ## Observability state (`src/utils.py`)

The Prometheus counters/histogram, the logger output and the audit
entries emitted through `log_model_access` are modelled as one explicitly
threaded record. A histogram observation is counted, not timed. -/

/-- One audit entry written by `log_model_access` (utils.py 75-85); the
wall-clock timestamp of the entry is not modelled. -/
structure AuditEntry where
  user_id : String
  model_version : String
  action : String
deriving DecidableEq, Repr

/-- The observable side-effect state of the serving path:
`PREDICTION_COUNTER`, `DATA_VALIDATION_ERRORS`, the number of
`PREDICTION_LATENCY` observations, the logger lines, the audit log. -/
structure SysState where
  predictionCounter : Nat
  dataValidationErrors : Nat
  latencyObservations : Nat
  logs : List String
  auditLog : List AuditEntry
deriving DecidableEq, Repr

/-- The state at process start: all metrics zero, no log output. -/
def initState : SysState :=
  { predictionCounter := 0, dataValidationErrors := 0,
    latencyObservations := 0, logs := [], auditLog := [] }

/-- Models `logger.error` / `logger.info`: append one line. -/
def SysState.addLog (s : SysState) (m : String) : SysState :=
  { s with logs := s.logs ++ [m] }

/-- Models `log_model_access(logger, user_id, model_version, action)`
(utils.py 75-85): append one structured audit entry. -/
def log_model_access (s : SysState) (user_id model_version action : String) : SysState :=
  { s with auditLog := s.auditLog ++
      [{ user_id := user_id, model_version := model_version, action := action }] }

/-! ## DataFrames and `validate_input_data` (utils.py 37-73) -/

/-- One row of the single-row frame `pd.DataFrame([input_data.dict()])`;
the numeric columns are rationals (`age`/`children` arrive as integers but
pandas holds them as numbers comparable against the range bounds). -/
structure DataRow where
  age : ℚ
  bmi : ℚ
  children : ℚ
  smoker : Bool
  region : String
  gender : String
deriving DecidableEq, Repr

/-- A pandas DataFrame restricted to what the serving path uses: its
column index and its rows. -/
structure DataFrame where
  columns : List String
  rows : List DataRow
deriving DecidableEq, Repr

/-- Models `required_columns` (utils.py 48). -/
def requiredColumns : List String :=
  ["age", "bmi", "children", "smoker", "region", "gender"]

/-- Models `series.min()`: minimum over the rows of one column; `none` models the
NaN produced on an empty column. -/
def colMin (l : List ℚ) : Option ℚ :=
  match l with
  | [] => none
  | x :: xs => some (xs.foldl min x)

/-- Models `lo <= series.min() <= hi`: comparisons against NaN are false. -/
def seriesMinInRange (lo hi : ℚ) : Option ℚ → Bool
  | none => false
  | some v => decide (lo ≤ v) && decide (v ≤ hi)

/-- Models `validate_input_data(data)` (utils.py 37-73): checks that the required
columns exist and that the per-column MINIMA of age, bmi, children lie in
range, incrementing `DATA_VALIDATION_ERRORS` on each rejection. -/
def validate_input_data (data : DataFrame) (s : SysState) : Bool × SysState :=
  if ¬ (requiredColumns.all fun c => data.columns.contains c) then
    (false, { s with dataValidationErrors := s.dataValidationErrors + 1 })
  else if ¬ seriesMinInRange 0 100 (colMin (data.rows.map DataRow.age)) then
    (false, { s with dataValidationErrors := s.dataValidationErrors + 1 })
  else if ¬ seriesMinInRange 10 50 (colMin (data.rows.map DataRow.bmi)) then
    (false, { s with dataValidationErrors := s.dataValidationErrors + 1 })
  else if ¬ seriesMinInRange 0 10 (colMin (data.rows.map DataRow.children)) then
    (false, { s with dataValidationErrors := s.dataValidationErrors + 1 })
  else (true, s)

/-- The pure outcome of `validate_input_data`, separated from its metric
side effect for use in proofs. -/
def validate_input_check (data : DataFrame) : Bool :=
  (requiredColumns.all fun c => data.columns.contains c) &&
  seriesMinInRange 0 100 (colMin (data.rows.map DataRow.age)) &&
  seriesMinInRange 10 50 (colMin (data.rows.map DataRow.bmi)) &&
  seriesMinInRange 0 10 (colMin (data.rows.map DataRow.children))

theorem validate_input_data_eq (data : DataFrame) (s : SysState) :
    validate_input_data data s =
      (validate_input_check data,
       if validate_input_check data then s
       else { s with dataValidationErrors := s.dataValidationErrors + 1 }) := by
  unfold validate_input_data validate_input_check
  cases h1 : requiredColumns.all fun c => data.columns.contains c <;>
    cases h2 : seriesMinInRange 0 100 (colMin (data.rows.map DataRow.age)) <;>
    cases h3 : seriesMinInRange 10 50 (colMin (data.rows.map DataRow.bmi)) <;>
    cases h4 : seriesMinInRange 0 10 (colMin (data.rows.map DataRow.children)) <;>
    simp only [h1, h2, h3, h4, Bool.not_true, Bool.not_false, Bool.false_and,
      Bool.true_and, Bool.and_false, Bool.and_true, not_true, not_false_iff,
      ite_true, ite_false, if_true, if_false, Bool.false_eq_true, not_false_eq_true,
      Bool.true_eq_false]

/-! ## The loaded model and the prediction executor (`src/predict.py`) -/

/-- The process-wide loaded model: `getattr` of the version attribute with default value unknown
is modelled by an optional `version` attribute; `model.metadata` (used only
in dead code) as a key/value list; `model.predict` as a function that
either returns the prediction array or raises. -/
structure LoadedModel where
  version : Option String
  metadata : List (String × String)
  predictFn : DataFrame → Except PyErr (List ℚ)

/-- The body of `predict(model, data)` (predict.py 87-113): structural
re-validation, model invocation, success audit, and on any exception a
log line, a `prediction_error` audit entry and a re-raise. -/
def predictBody (model : LoadedModel) (data : DataFrame) (s : SysState) :
    Except PyErr (List ℚ) × SysState :=
  let tryRes : Except PyErr (List ℚ) × SysState :=
    match validate_input_data data s with
    | (false, s1) => (.error (.valueError "Invalid input data format"), s1)
    | (true, s1) =>
      match model.predictFn data with
      | .ok preds =>
          (.ok preds,
           log_model_access s1 "prediction_service" "production_model" "prediction_success")
      | .error e => (.error e, s1)
  match tryRes with
  | (.ok preds, s2) => (.ok preds, s2)
  | (.error e, s2) =>
      (.error e,
       log_model_access (s2.addLog ("Prediction error: " ++ e.msg))
         "prediction_service" "production_model" ("prediction_error: " ++ e.msg))

/-- Models `monitor_prediction` (utils.py 93-101): increment `PREDICTION_COUNTER`
before calling the wrapped function, and record one latency observation
when the `PREDICTION_LATENCY.time()` block exits — also on an exception. -/
def monitor_prediction (func : SysState → Except PyErr (List ℚ) × SysState)
    (s : SysState) : Except PyErr (List ℚ) × SysState :=
  let s0 := { s with predictionCounter := s.predictionCounter + 1 }
  let r := func s0
  (r.1, { r.2 with latencyObservations := r.2.latencyObservations + 1 })

/-- Models `predict` as exported: `predictBody` wrapped by `@monitor_prediction`.
(The trailing mlflow-metric block of predict.py 114-121 sits after a
`return`/`raise` in every path and is dead; it is not modelled here.) -/
def predict (model : LoadedModel) (data : DataFrame) (s : SysState) :
    Except PyErr (List ℚ) × SysState :=
  monitor_prediction (predictBody model data) s

/-! ## The serving endpoint (`app/api.py`) -/

/-- Models `PredictionOutput` (api.py 89-92). -/
structure PredictionOutput where
  prediction : ℚ
  model_version : String
  prediction_time : String
deriving DecidableEq, Repr

/-- The HTTP response of the predict route: a 200 body or an
`HTTPException`-derived error with status and detail. -/
inductive HTTPResponse where
  | ok (out : PredictionOutput)
  | error (status : Nat) (detail : String)
deriving DecidableEq, Repr

/-- Whether the response is a 200 success. -/
def HTTPResponse.isOk : HTTPResponse → Bool
  | .ok _ => true
  | .error _ _ => false

/-- An exception escaping a statement of the handler: an `HTTPException`
carrying status and detail, or a plain Python exception. -/
inductive Exn where
  | http (status : Nat) (detail : String)
  | py (e : PyErr)
deriving DecidableEq, Repr

/-- How control leaves a block of Python statements: a `return`, a raised
exception, or falling through to whatever follows the block. -/
inductive PyFlow (α : Type) where
  | ret (v : α)
  | exn (e : Exn)
  | next
deriving DecidableEq

/-- Models `pd.DataFrame([input_data.dict()])` (api.py 129): the single-row frame
with exactly the schema columns. -/
def toDataFrame (inp : PredictionInput) : DataFrame :=
  { columns := requiredColumns,
    rows := [{ age := (inp.age : ℚ), bmi := inp.bmi, children := (inp.children : ℚ),
               smoker := inp.smoker, region := inp.region, gender := inp.gender }] }

/-- Models `str(e)` of the IndexError raised by `prediction[0]` when the model
returns an empty array. -/
def indexErrorMsg : String := "index 0 is out of bounds for axis 0 with size 0"

/-- The first (live) block of `make_prediction` (api.py 127-150): the
try/except that runs `predict`, observes latency, builds the response, and
maps `ValueError` to 400 and any other exception to 500, logging each. -/
def make_prediction_block1 (model : LoadedModel) (inp : PredictionInput)
    (now : String) (s : SysState) : PyFlow PredictionOutput × SysState :=
  let data := toDataFrame inp
  let tryRes : Except PyErr PredictionOutput × SysState :=
    match predict model data s with
    | (.error e, s1) => (.error e, s1)
    | (.ok preds, s1) =>
      let s2 := { s1 with latencyObservations := s1.latencyObservations + 1 }
      match preds with
      | [] => (.error (.otherError indexErrorMsg), s2)
      | p :: _ =>
          (.ok { prediction := p, model_version := model.version.getD "unknown",
                 prediction_time := now }, s2)
  match tryRes with
  | (.ok out, s2) => (.ret out, s2)
  | (.error (.valueError m), s2) =>
      (.exn (.http 400 m), s2.addLog ("Validation error: " ++ m))
  | (.error (.otherError m), s2) =>
      (.exn (.http 500 m), s2.addLog ("Prediction error: " ++ m))

/-- Models `str(HTTPException(status, detail))` as FastAPI renders it. -/
def httpExceptionStr (status : Nat) (detail : String) : String :=
  toString status ++ ": " ++ detail

/-- The second, trailing block of `make_prediction` (api.py 151-167): a
try/except whose `except Exception` arm also catches the 400
`HTTPException` raised inside it and whose success arm builds a
`PredictionOutput` without the required `prediction_time` field, so every
path out of its try body ends in the 500 handler. -/
def make_prediction_block2 (model : LoadedModel) (inp : PredictionInput)
    (s : SysState) : PyFlow PredictionOutput × SysState :=
  let data := toDataFrame inp
  let tryRes : Except PyErr PredictionOutput × SysState :=
    match validate_input_data data s with
    | (false, s1) =>
        (.error (.otherError (httpExceptionStr 400 "Invalid input data format")), s1)
    | (true, s1) =>
      match predict model data s1 with
      | (.error e, s2) => (.error e, s2)
      | (.ok _, s2) =>
          (.error (.otherError "1 validation error for PredictionOutput: prediction_time field required"), s2)
  match tryRes with
  | (.ok out, s2) => (.ret out, s2)
  | (.error e, s2) => (.exn (.http 500 e.msg), s2)

/-- Models `make_prediction` with its control flow explicit: run the first block;
only if it falls through does the trailing block run, and the Boolean
records whether that happened. -/
def make_prediction_full (model : LoadedModel) (inp : PredictionInput)
    (now : String) (s : SysState) : (PyFlow PredictionOutput × SysState) × Bool :=
  match make_prediction_block1 model inp now s with
  | (.next, s1) => (make_prediction_block2 model inp s1, true)
  | (f, s1) => ((f, s1), false)

/-- The HTTP outcome of `make_prediction`: a returned body becomes a 200,
a raised `HTTPException` becomes its error response (an exception of any
other class would surface as a framework 500). -/
def make_prediction (model : LoadedModel) (inp : PredictionInput)
    (now : String) (s : SysState) : HTTPResponse × SysState :=
  match (make_prediction_full model inp now s).1 with
  | (.ret out, s1) => (.ok out, s1)
  | (.exn (.http st d), s1) => (.error st d, s1)
  | (.exn (.py e), s1) => (.error 500 e.msg, s1)
  | (.next, s1) => (.error 500 "", s1)

/-- Models `POST /predict` end to end: the framework first runs the
`PredictionInput` field validators on the parsed payload and answers 422
with the violation message when they reject; otherwise the handler runs
on the normalized request. -/
def handle_predict (model : LoadedModel) (raw : PredictionInput) (now : String)
    (s : SysState) : HTTPResponse × SysState :=
  match parsePredictionInput raw with
  | .error e => (.error 422 e.msg, s)
  | .ok inp => make_prediction model inp now s

/-- The body of `GET /health` (api.py 115-120). -/
structure HealthBody where
  status : String
  timestamp : String
deriving DecidableEq, Repr

/-- Models `health_check` (api.py 115-120): a 200 with a fixed body, taking the
process-wide model slot (possibly empty) only to show it is not read. -/
def health_check (model : Option LoadedModel) (now : String) : Nat × HealthBody :=
  (200, { status := "healthy", timestamp := now })

/-! ## Characterizations of the executor and endpoint used in the proofs -/

/-- The value `predict` computes, separated from its side effects. -/
def predictResult (model : LoadedModel) (data : DataFrame) : Except PyErr (List ℚ) :=
  if validate_input_check data then model.predictFn data
  else .error (.valueError "Invalid input data format")

theorem predict_fst (model : LoadedModel) (data : DataFrame) (s : SysState) :
    (predict model data s).1 = predictResult model data := by
  unfold predict monitor_prediction predictBody predictResult
  cases h : validate_input_check data
  · simp [validate_input_data_eq, h]
  · cases hp : model.predictFn data <;> simp [validate_input_data_eq, h, hp]

theorem predict_err_state (model : LoadedModel) (data : DataFrame) (s : SysState)
    (e : PyErr) (hv : validate_input_check data = true)
    (hp : model.predictFn data = .error e) :
    predict model data s =
      (.error e,
       { predictionCounter := s.predictionCounter + 1,
         dataValidationErrors := s.dataValidationErrors,
         latencyObservations := s.latencyObservations + 1,
         logs := s.logs ++ ["Prediction error: " ++ e.msg],
         auditLog := s.auditLog ++
           [{ user_id := "prediction_service", model_version := "production_model",
              action := "prediction_error: " ++ e.msg }] }) := by
  unfold predict monitor_prediction predictBody
  simp [validate_input_data_eq, hv, hp, SysState.addLog, log_model_access]

theorem predict_ok_state (model : LoadedModel) (data : DataFrame) (s : SysState)
    (preds : List ℚ) (hv : validate_input_check data = true)
    (hp : model.predictFn data = .ok preds) :
    predict model data s =
      (.ok preds,
       { predictionCounter := s.predictionCounter + 1,
         dataValidationErrors := s.dataValidationErrors,
         latencyObservations := s.latencyObservations + 1,
         logs := s.logs,
         auditLog := s.auditLog ++
           [{ user_id := "prediction_service", model_version := "production_model",
              action := "prediction_success" }] }) := by
  unfold predict monitor_prediction predictBody
  simp [validate_input_data_eq, hv, hp, log_model_access]

/-- The response value of `make_prediction`, separated from side effects. -/
def makePredictionResult (model : LoadedModel) (inp : PredictionInput) (now : String) :
    HTTPResponse :=
  match predictResult model (toDataFrame inp) with
  | .ok [] => .error 500 indexErrorMsg
  | .ok (p :: _) =>
      .ok { prediction := p, model_version := model.version.getD "unknown",
            prediction_time := now }
  | .error (.valueError m) => .error 400 m
  | .error (.otherError m) => .error 500 m

theorem block1_never_next (model : LoadedModel) (inp : PredictionInput)
    (now : String) (s : SysState) :
    (make_prediction_block1 model inp now s).1 ≠ PyFlow.next := by
  unfold make_prediction_block1
  rcases hp : predict model (toDataFrame inp) s with ⟨r, s1⟩
  simp only [hp]
  rcases r with e | preds
  · rcases e with m | m <;> simp
  · rcases preds with _ | ⟨p, rest⟩ <;> simp

theorem make_prediction_fst (model : LoadedModel) (inp : PredictionInput)
    (now : String) (s : SysState) :
    (make_prediction model inp now s).1 = makePredictionResult model inp now := by
  unfold make_prediction make_prediction_full make_prediction_block1 makePredictionResult
  have hf := predict_fst model (toDataFrame inp) s
  rcases hp : predict model (toDataFrame inp) s with ⟨r, s1⟩
  rw [hp] at hf
  replace hf : r = predictResult model (toDataFrame inp) := hf
  simp only [hp, ← hf]
  rcases r with e | preds
  · rcases e with m | m <;> simp
  · rcases preds with _ | ⟨p, rest⟩ <;> simp

/-- The response value of the whole `POST /predict` route. -/
def handleResult (model : LoadedModel) (raw : PredictionInput) (now : String) :
    HTTPResponse :=
  match parsePredictionInput raw with
  | .error e => .error 422 e.msg
  | .ok inp => makePredictionResult model inp now

theorem handle_predict_fst (model : LoadedModel) (raw : PredictionInput)
    (now : String) (s : SysState) :
    (handle_predict model raw now s).1 = handleResult model raw now := by
  unfold handle_predict handleResult
  cases hp : parsePredictionInput raw <;> simp [hp, make_prediction_fst]

theorem validate_check_toDataFrame (inp : PredictionInput)
    (ha : 0 ≤ inp.age ∧ inp.age ≤ 100) (hb : 10 ≤ inp.bmi ∧ inp.bmi ≤ 50)
    (hc : 0 ≤ inp.children ∧ inp.children ≤ 10) :
    validate_input_check (toDataFrame inp) = true := by
  have h1 : (0 : ℚ) ≤ (inp.age : ℚ) := by exact_mod_cast ha.1
  have h2 : ((inp.age : ℚ)) ≤ 100 := by exact_mod_cast ha.2
  have h5 : (0 : ℚ) ≤ (inp.children : ℚ) := by exact_mod_cast hc.1
  have h6 : ((inp.children : ℚ)) ≤ 10 := by exact_mod_cast hc.2
  simp [validate_input_check, toDataFrame, colMin, seriesMinInRange, requiredColumns,
    h1, h2, hb.1, hb.2, h5, h6]

/-! ## Preprocessing (`src/preprocessing.py`), for the dead-code claim

`preprocess_data` orchestrates pandas/sklearn/mlflow calls; those
collaborators are abstracted as an operations record over opaque frame
and pipeline types, each fallible call returning `Except`. Only the
control flow of the function is at stake. -/

/-- The mlflow tracking side effects of `preprocess_data`: logged
parameters and logged model artifacts, in order. -/
structure MLState where
  params : List (String × String)
  loggedModels : List String
deriving DecidableEq, Repr

/-- Models `mlflow.log_param`. -/
def MLState.logParam (s : MLState) (k v : String) : MLState :=
  { s with params := s.params ++ [(k, v)] }

/-- Models `mlflow.sklearn.log_model`. -/
def MLState.logModel (s : MLState) (name : String) : MLState :=
  { s with loggedModels := s.loggedModels ++ [name] }

/-- The pandas/sklearn collaborators `preprocess_data` calls, over an
opaque frame type `F` and pipeline type `P`; calls that can raise return
`Except`. -/
structure PreprocessOps (F P : Type) where
  hash_data : F → String
  nRows : F → Nat
  nCols : F → Nat
  fillnaMean : F → F
  createPipeline : Unit → P
  dropTarget : F → Except PyErr F
  getTarget : F → Except PyErr F
  train_test_split : F → F → Except PyErr (F × F × F × F)
  fit_transform : P → F → Except PyErr F
  transform : P → F → Except PyErr F
  featureNames : P → F → Except PyErr (List String)
  withColumns : F → List String → Except PyErr F

/-- The computation of preprocessing.py 54-83 (fillna through rebuilding
the named train/test frames): the first raised exception propagates. -/
def preprocess_try {F P : Type} (ops : PreprocessOps F P) (df : F) :
    Except PyErr (F × F × F × F × P) := do
  let df2 := ops.fillnaMean df
  let pre := ops.createPipeline ()
  let X ← ops.dropTarget df2
  let y ← ops.getTarget df2
  let (Xtr, Xte, ytr, yte) ← ops.train_test_split X y
  let XtrT ← ops.fit_transform pre Xtr
  let XteT ← ops.transform pre Xte
  let names ← ops.featureNames pre Xtr
  let XtrD ← ops.withColumns XtrT names
  let XteD ← ops.withColumns XteT names
  return (XtrD, XteD, ytr, yte, pre)

/-- Models `preprocess_data(df, track_mlflow)` (preprocessing.py 38-96) with its
control flow explicit. The first block logs the initial parameters, runs
the computation, logs the preprocessing parameters and the preprocessor
model, and ends in the `return` of line 92. Only if that block fell
through would the trailing statements of lines 93-96 run (two further
`log_param` calls — their concrete arguments are irrelevant here — and a
`return` mentioning the undefined names `X_train_scaled`/`scaler`, a
NameError); the Boolean records whether they ran. -/
def preprocess_data {F P : Type} (ops : PreprocessOps F P) (df : F)
    (track_mlflow : Bool) (s : MLState) :
    (PyFlow (F × F × F × F × P) × MLState) × Bool :=
  let s1 := if track_mlflow then
      ((s.logParam "data_version" (ops.hash_data df)).logParam "n_samples"
        (toString (ops.nRows df))).logParam "n_features" (toString (ops.nCols df - 1))
    else s
  let block1 : PyFlow (F × F × F × F × P) × MLState :=
    match preprocess_try ops df with
    | .error e => (.exn (.py e), s1)
    | .ok r =>
      let s2 := if track_mlflow then
          ((((s1.logParam "preprocessing_steps" "fillna,standardization,onehot").logParam
              "numeric_features" "age,bmi").logParam
              "categorical_features" "smoker,region,gender").logModel "preprocessor")
        else s1
      (.ret r, s2)
  match block1 with
  | (.next, s2) =>
      ((.exn (.py (.otherError "name X_train_scaled is not defined")),
        (s2.logParam "train_size" "len(X_train)").logParam "test_size" "len(X_test)"),
       true)
  | (f, s2) => ((f, s2), false)

/-! ## Concrete fixtures for witnesses and counterexamples -/

/-- The documented example request, already lower-case. -/
def exValidInput : PredictionInput :=
  { age := 35, bmi := 25, children := 2, smoker := false,
    region := "southwest", gender := "female" }

/-- A request violating the age range. -/
def badAgeInput : PredictionInput :=
  { age := 150, bmi := 25, children := 2, smoker := false,
    region := "southwest", gender := "female" }

/-- A deterministic stub model returning 7000. -/
def stubModel : LoadedModel :=
  { version := some "3", metadata := [], predictFn := fun _ => .ok [7000] }

/-- A model whose invocation raises a non-ValueError exception. -/
def errModel : LoadedModel :=
  { version := some "3", metadata := [], predictFn := fun _ => .error (.otherError "boom") }

/-- A deterministic model with no `version` attribute. -/
def noVersionModel : LoadedModel :=
  { version := none, metadata := [], predictFn := fun _ => .ok [7000] }

/-! ## Claims C2-C10 -/

/-- C2 counterexample: for the valid example request against a model whose
invocation raises an exception with message "boom", the 500
response of the endpoint carries "boom" itself as the detail — `str(e)` is echoed
verbatim to the caller, not an opaque message. -/
theorem C2_detail_echoes_cause :
    (handle_predict errModel exValidInput "t0" initState).1 =
      .error 500 (PyErr.otherError "boom").msg := by decide

/-- C2 as amended: for every structurally valid request whose model
invocation raises a non-ValueError exception, the endpoint returns 500
with detail equal to the stringified cause, and the cause is also
logged. -/
theorem C2_amended_500_echoes_detail (model : LoadedModel) (inp : PredictionInput)
    (now : String) (s : SysState) (m : String)
    (hv : inputValid inp)
    (hp : model.predictFn (toDataFrame (normalizeInput inp)) = .error (.otherError m)) :
    (handle_predict model inp now s).1 = .error 500 m ∧
    ("Prediction error: " ++ m) ∈ (handle_predict model inp now s).2.logs := by
  obtain ⟨ha, hb, hc, hr, hg⟩ := hv
  have hck : validate_input_check (toDataFrame (normalizeInput inp)) = true :=
    validate_check_toDataFrame (normalizeInput inp) ha hb hc
  have hparse := parse_ok_of_valid inp ⟨ha, hb, hc, hr, hg⟩
  unfold handle_predict
  simp only [hparse]
  unfold make_prediction make_prediction_full make_prediction_block1
  simp only [predict_err_state model (toDataFrame (normalizeInput inp)) s
    (.otherError m) hck hp]
  simp [SysState.addLog, PyErr.msg]

/-- C2 witness: the amended statement instantiated at the example request
and the raising model. -/
theorem C2_amended_witness :
    inputValid exValidInput ∧
    ((handle_predict errModel exValidInput "t0" initState).1 = .error 500 "boom" ∧
      ("Prediction error: " ++ "boom") ∈
        (handle_predict errModel exValidInput "t0" initState).2.logs) :=
  ⟨by decide,
   C2_amended_500_echoes_detail errModel exValidInput "t0" initState "boom"
     (by decide) rfl⟩

/-- C3: a request with any field outside its documented range or
enumeration is rejected with a 400-class status (the 422 of the framework)
before the handler runs, and `PREDICTION_COUNTER` is not incremented. -/
theorem C3_invalid_field_rejected_not_counted (model : LoadedModel)
    (raw : PredictionInput) (now : String) (s : SysState)
    (h : ¬ inputValid raw) :
    (∃ st d, (handle_predict model raw now s).1 = .error st d ∧
      400 ≤ st ∧ st < 500) ∧
    (handle_predict model raw now s).2.predictionCounter = s.predictionCounter := by
  obtain ⟨e, he⟩ := parse_err_of_invalid raw h
  refine ⟨⟨422, e.msg, ?_, by norm_num, by norm_num⟩, ?_⟩ <;>
    simp [handle_predict, he]

/-- C3 witness: age 150 (the example given in the spec) is rejected in the
400 class and the prediction counter stays at its initial value. -/
theorem C3_invalid_field_witness :
    ¬ inputValid badAgeInput ∧
    ((∃ st d, (handle_predict stubModel badAgeInput "t0" initState).1 =
        .error st d ∧ 400 ≤ st ∧ st < 500) ∧
      (handle_predict stubModel badAgeInput "t0" initState).2.predictionCounter =
        initState.predictionCounter) :=
  ⟨by decide,
   C3_invalid_field_rejected_not_counted stubModel badAgeInput "t0" initState
     (by decide)⟩

/-- C4 counterexample: when the model invocation raises, `predict`
re-raises, but no error counter moves: `DATA_VALIDATION_ERRORS` is
unchanged, and the only counter that did change is the attempts counter
`PREDICTION_COUNTER`, already incremented before the call. -/
theorem C4_no_error_counter_incremented :
    (predict errModel (toDataFrame exValidInput) initState).1 =
      .error (.otherError "boom") ∧
    (predict errModel (toDataFrame exValidInput) initState).2.dataValidationErrors =
      initState.dataValidationErrors ∧
    (predict errModel (toDataFrame exValidInput) initState).2.predictionCounter =
      initState.predictionCounter + 1 := by decide

/-- C4 as amended: on a model-invocation error the executor logs the
cause, emits a `prediction_error` audit entry and re-raises the error —
but it increments no error counter (`DATA_VALIDATION_ERRORS` is
untouched); it never substitutes a default value. -/
theorem C4_amended_error_path (model : LoadedModel) (data : DataFrame)
    (s : SysState) (e : PyErr)
    (hv : validate_input_check data = true)
    (hp : model.predictFn data = .error e) :
    (predict model data s).1 = .error e ∧
    ("Prediction error: " ++ e.msg) ∈ (predict model data s).2.logs ∧
    ({ user_id := "prediction_service", model_version := "production_model",
       action := "prediction_error: " ++ e.msg } : AuditEntry) ∈
      (predict model data s).2.auditLog ∧
    (predict model data s).2.dataValidationErrors = s.dataValidationErrors := by
  rw [predict_err_state model data s e hv hp]
  simp

/-- C4 witness: the amended statement instantiated at the raising model
and the frame of the example request. -/
theorem C4_amended_witness :
    validate_input_check (toDataFrame exValidInput) = true ∧
    ((predict errModel (toDataFrame exValidInput) initState).1 =
        .error (.otherError "boom") ∧
      ("Prediction error: " ++ (PyErr.otherError "boom").msg) ∈
        (predict errModel (toDataFrame exValidInput) initState).2.logs ∧
      ({ user_id := "prediction_service", model_version := "production_model",
         action := "prediction_error: " ++ (PyErr.otherError "boom").msg } : AuditEntry) ∈
        (predict errModel (toDataFrame exValidInput) initState).2.auditLog ∧
      (predict errModel (toDataFrame exValidInput) initState).2.dataValidationErrors =
        initState.dataValidationErrors) :=
  ⟨by decide,
   C4_amended_error_path errModel (toDataFrame exValidInput) initState
     (.otherError "boom") (by decide) rfl⟩

/-- A two-row frame whose per-column minima are all in range but whose
second row has age 150. -/
def multiRowFrame : DataFrame :=
  { columns := requiredColumns,
    rows := [{ age := 30, bmi := 25, children := 2, smoker := false,
               region := "southwest", gender := "female" },
             { age := 150, bmi := 25, children := 2, smoker := true,
               region := "northeast", gender := "male" }] }

/-- C5: `validate_input_data` only checks the minimum across rows: it
accepts a multi-row frame with all required columns whose minima are in
range even though the age of one row is out of range. -/
theorem C5_min_only_validation :
    (validate_input_data multiRowFrame initState).1 = true ∧
    ∃ r ∈ multiRowFrame.rows, ¬ (0 ≤ r.age ∧ r.age ≤ 100) := by decide

/-- C6: `GET /health` returns 200 with `status = "healthy"` and the
current timestamp, and its result is the same whatever the model slot
holds — including an empty slot after a failed load. -/
theorem C6_health_always_healthy (model model2 : Option LoadedModel) (now : String) :
    health_check model now = (200, { status := "healthy", timestamp := now }) ∧
    health_check model now = health_check model2 now :=
  ⟨rfl, rfl⟩

/-- C7: two successful runs of the same request against the same model —
from any two observability states and timestamps — return the same
`prediction` and `model_version` (only `prediction_time` may differ). -/
theorem C7_idempotent_prediction (model : LoadedModel) (raw : PredictionInput)
    (now1 now2 : String) (s1 s2 : SysState) (o1 o2 : PredictionOutput)
    (h1 : (handle_predict model raw now1 s1).1 = .ok o1)
    (h2 : (handle_predict model raw now2 s2).1 = .ok o2) :
    o1.prediction = o2.prediction ∧ o1.model_version = o2.model_version := by
  rw [handle_predict_fst] at h1 h2
  unfold handleResult makePredictionResult at h1 h2
  rcases hp : parsePredictionInput raw with e | inp <;> simp only [hp] at h1 h2
  · simp at h1
  · rcases hr : predictResult model (toDataFrame inp) with e | preds <;>
      simp only [hr] at h1 h2
    · rcases e with m | m <;> simp at h1
    · rcases preds with _ | ⟨p, rest⟩
      · simp at h1
      · simp only [HTTPResponse.ok.injEq] at h1 h2
        subst h1
        subst h2
        exact ⟨rfl, rfl⟩

/-- C7 witness: the stub model answers the example request twice in a
row (the second call starting from the state left by the first) with the same
prediction and model version, different timestamps. -/
theorem C7_idempotent_witness :
    ((handle_predict stubModel exValidInput "t1" initState).1 =
        .ok { prediction := 7000, model_version := "3", prediction_time := "t1" } ∧
      (handle_predict stubModel exValidInput "t2"
          ((handle_predict stubModel exValidInput "t1" initState).2)).1 =
        .ok { prediction := 7000, model_version := "3", prediction_time := "t2" }) ∧
    (({ prediction := 7000, model_version := "3", prediction_time := "t1" } :
        PredictionOutput).prediction =
      ({ prediction := 7000, model_version := "3", prediction_time := "t2" } :
        PredictionOutput).prediction ∧
     ({ prediction := 7000, model_version := "3", prediction_time := "t1" } :
        PredictionOutput).model_version =
      ({ prediction := 7000, model_version := "3", prediction_time := "t2" } :
        PredictionOutput).model_version) :=
  ⟨⟨by decide, by decide⟩,
   C7_idempotent_prediction stubModel exValidInput "t1" "t2" initState
     ((handle_predict stubModel exValidInput "t1" initState).2) _ _
     (by decide) (by decide)⟩

/-- C8: the trailing blocks — api.py 151-167 after the first try/except
of `make_prediction`, and preprocessing.py 93-96 after the `return` of
`preprocess_data` — never run: every path of each function returns or
raises within the first block. -/
theorem C8_trailing_blocks_unreachable :
    (∀ (model : LoadedModel) (inp : PredictionInput) (now : String) (s : SysState),
      (make_prediction_full model inp now s).2 = false) ∧
    (∀ (F P : Type) (ops : PreprocessOps F P) (df : F) (track : Bool) (s : MLState),
      (preprocess_data ops df track s).2 = false) := by
  constructor
  · intro model inp now s
    unfold make_prediction_full
    have hn := block1_never_next model inp now s
    rcases hb : make_prediction_block1 model inp now s with ⟨f, s1⟩
    rw [hb] at hn
    rcases f with v | e | _
    · simp
    · simp
    · simp at hn
  · intro F P ops df track s
    unfold preprocess_data
    cases h : preprocess_try ops df <;> simp [h]

/-- C9: `monitor_prediction` increments the prediction counter and opens
the latency timer before the wrapped body runs, so every call to
`predict` — validation failure and model error included — bumps the
counter by exactly one and records exactly one latency observation. -/
theorem C9_counter_and_latency_every_call (model : LoadedModel) (data : DataFrame)
    (s : SysState) :
    (predict model data s).2.predictionCounter = s.predictionCounter + 1 ∧
    (predict model data s).2.latencyObservations = s.latencyObservations + 1 := by
  unfold predict monitor_prediction predictBody
  simp only [validate_input_data_eq]
  cases h : validate_input_check data
  · simp [h, log_model_access, SysState.addLog]
  · cases hp : model.predictFn data <;>
      simp [h, hp, log_model_access, SysState.addLog]

/-- C10: the `model_version` of a successful response is
`getattr` of the version attribute with default value unknown: the version attribute when
present, the literal "unknown" otherwise; and removing the version
attribute does not change whether the request succeeds. -/
theorem C10_model_version_getattr (model : LoadedModel) (raw : PredictionInput)
    (now : String) (s : SysState) :
    (∀ o, (handle_predict model raw now s).1 = .ok o →
      o.model_version = model.version.getD "unknown") ∧
    (handle_predict { model with version := none } raw now s).1.isOk =
      (handle_predict model raw now s).1.isOk := by
  constructor
  · intro o h
    rw [handle_predict_fst] at h
    unfold handleResult makePredictionResult at h
    rcases hp : parsePredictionInput raw with e | inp <;> simp only [hp] at h
    · simp at h
    · rcases hr : predictResult model (toDataFrame inp) with e | preds <;>
        simp only [hr] at h
      · rcases e with m | m <;> simp at h
      · rcases preds with _ | ⟨p, rest⟩
        · simp at h
        · simp only [HTTPResponse.ok.injEq] at h
          subst h
          rfl
  · rw [handle_predict_fst, handle_predict_fst]
    unfold handleResult
    rcases hp : parsePredictionInput raw with e | inp
    · rfl
    · show (makePredictionResult { model with version := none } inp now).isOk =
        (makePredictionResult model inp now).isOk
      unfold makePredictionResult
      have hpr : predictResult { model with version := none } (toDataFrame inp) =
          predictResult model (toDataFrame inp) := rfl
      rw [hpr]
      rcases hr : predictResult model (toDataFrame inp) with e | preds
      · rcases e with m | m <;> rfl
      · rcases preds with _ | ⟨p, rest⟩ <;> rfl

/-- C10 witness: the version-less model answers the example request with
a 200 whose `model_version` is "unknown". -/
theorem C10_model_version_witness :
    (handle_predict noVersionModel exValidInput "t0" initState).1 =
      .ok { prediction := 7000, model_version := "unknown", prediction_time := "t0" } ∧
    ({ prediction := 7000, model_version := "unknown", prediction_time := "t0" } :
        PredictionOutput).model_version = noVersionModel.version.getD "unknown" :=
  ⟨by decide,
   (C10_model_version_getattr noVersionModel exValidInput "t0" initState).1 _
     (by decide)⟩
